import Mathlib

/-!
Shallow embedding of `knz/lipgloss-convert` (`src/convert.go`): a textual
import/export format for `lipgloss.Style` values.  Strings are modelled as
`List Char` (the inputs exercised here are ASCII, where Go byte positions and
rune positions coincide).  The regular expressions of the source are embedded
as hand-written anchored matchers that follow Go's leftmost-first semantics,
documented next to each definition.
-/

namespace LipglossConvert

/-! ## Character and string helpers -/

/-- Go regexp's `\s` character class (RE2): `[\t\n\f\r ]`. -/
def isWS (c : Char) : Bool :=
  c = ' ' || c = '\t' || c = '\n' || c = Char.ofNat 12 || c = Char.ofNat 13

/-- `unicode.IsSpace` as used by `strings.TrimSpace`, restricted to the ASCII
whitespace characters: `'\t', '\n', '\v', '\f', '\r', ' '` (the non-ASCII
Unicode space characters do not occur in the inputs in scope). -/
def isGoSpace (c : Char) : Bool :=
  c = ' ' || (9 ≤ c.toNat && c.toNat ≤ 13)

/-- `strings.TrimSpace` on a rune list. -/
def trimSpace (l : List Char) : List Char :=
  ((l.dropWhile isGoSpace).reverse.dropWhile isGoSpace).reverse

/-- `strings.Split(input, sep)` for a one-character separator
(`strings.Split` never returns an empty list; on empty input it returns
one empty field, like the Go function). -/
def splitOnChar (sep : Char) : List Char → List (List Char)
  | [] => [[]]
  | c :: rest =>
    match splitOnChar sep rest with
    | [] => [[c]]
    | h :: t => if c = sep then [] :: h :: t else (c :: h) :: t

/-- `strings.SplitN(a, ":", 2)`: split at the first colon.  Returns `none`
when there is no colon (the Go call then yields a 1-element slice, which
`Import` treats as a syntax error). -/
def splitFirstColon : List Char → Option (List Char × List Char)
  | [] => none
  | c :: rest =>
    if c = ':' then some ([], rest)
    else (splitFirstColon rest).map (fun p => (c :: p.1, p.2))

/-- Decimal digit test (`[0-9]`). -/
def isDigitC (c : Char) : Bool := '0' ≤ c && c ≤ '9'

/-- Hexadecimal digit test (`[0-9a-fA-F]`). -/
def isHexC (c : Char) : Bool :=
  isDigitC c || ('a' ≤ c && c ≤ 'f') || ('A' ≤ c && c ≤ 'F')

/-- Octal digit test (`[0-7]`). -/
def isOctalC (c : Char) : Bool := '0' ≤ c && c ≤ '7'

/-- Value of a decimal digit character. -/
def digitVal (c : Char) : Nat := c.toNat - '0'.toNat

/-- Value of a hexadecimal digit character. -/
def hexVal (c : Char) : Nat :=
  if isDigitC c then c.toNat - '0'.toNat
  else if 'a' ≤ c && c ≤ 'f' then c.toNat - 'a'.toNat + 10
  else c.toNat - 'A'.toNat + 10

/-- Decimal value of a digit list (most significant first). -/
def decVal (l : List Char) : Nat := l.foldl (fun acc c => 10 * acc + digitVal c) 0

/-- Hexadecimal value of a digit list (most significant first). -/
def hexValL (l : List Char) : Nat := l.foldl (fun acc c => 16 * acc + hexVal c) 0

/-- One lowercase hex digit. -/
def hexDigitChar (n : Nat) : Char :=
  if n < 10 then Char.ofNat ('0'.toNat + n) else Char.ofNat ('a'.toNat + n - 10)

/-- Go `strconv.Quote` of a single rune, as used by `%q` / `%+q`-style
formatting in `printValue` and by `fmt.Errorf("%q", ...)`.  `"` and `\`
get a backslash, the named control escapes are used for 7..13, other
control bytes print as `\xNN`; every other rune is treated as printable
and kept verbatim (exact for the character repertoire exercised by this
repository's inputs). -/
def goQuoteChar (c : Char) : List Char :=
  if c = '"' then ['\\', '"']
  else if c = '\\' then ['\\', '\\']
  else if c.toNat = 7 then ['\\', 'a']
  else if c.toNat = 8 then ['\\', 'b']
  else if c.toNat = 9 then ['\\', 't']
  else if c.toNat = 10 then ['\\', 'n']
  else if c.toNat = 11 then ['\\', 'v']
  else if c.toNat = 12 then ['\\', 'f']
  else if c.toNat = 13 then ['\\', 'r']
  else if c.toNat < 32 || c.toNat = 127 then
    ['\\', 'x', hexDigitChar (c.toNat / 16), hexDigitChar (c.toNat % 16)]
  else [c]

/-- Go `%q` of a rune list: surrounding double quotes plus per-rune quoting. -/
def goQuoteL (l : List Char) : List Char :=
  '"' :: (l.flatMap goQuoteChar) ++ ['"']

/-- Go `%q` of a `String`. -/
def goQuote (s : String) : String := String.mk (goQuoteL s.data)

/-! ## Data model: the style object (external collaborator)

`lipgloss.Style` is the out-of-scope collaborator (spec §1, §6): an
immutable-per-operation bundle of named attributes reached only through
getters/setters/unsetters.  The claims compare styles attribute-wise
(through the getter surface), so the model is a plain record of the
attribute values returned by the getters; "explicitly set to the zero
value" and "never set" coincide in this view, exactly as they do through
the getters of the real object.  The attribute surface is the one pinned by
`src/convert_test.go` (`TestExport/full`): lipgloss v0.5. -/

/-- `lipgloss.Border`: the eight border-edge glyph strings. -/
structure Border where
  top : String
  bottom : String
  left : String
  right : String
  topLeft : String
  topRight : String
  bottomRight : String
  bottomLeft : String
deriving DecidableEq, Repr

/-- The all-empty border (`lipgloss.Border{}`). -/
def Border.empty : Border := ⟨"", "", "", "", "", "", "", ""⟩

/-- `lipgloss.TerminalColor` restricted to the implementations the parser
and printer handle: `NoColor`, `Color` (a plain token kept as a string) and
`AdaptiveColor`. -/
inductive TerminalColor where
  | noColor
  | color (s : String)
  | adaptive (light dark : String)
deriving DecidableEq, Repr

/-- `lipgloss.Position` is a `float64`; positions reachable in this library
are exact decimals, modelled as rationals. -/
abbrev Pos := ℚ

/-- The attribute surface of `lipgloss.Style` (getter view; see above). -/
structure Style where
  bold : Bool := false
  italic : Bool := false
  underline : Bool := false
  strikethrough : Bool := false
  reverse : Bool := false
  blink : Bool := false
  faint : Bool := false
  underlineSpaces : Bool := false
  strikethroughSpaces : Bool := false
  colorWhitespace : Bool := false
  inline : Bool := false
  foreground : TerminalColor := .noColor
  background : TerminalColor := .noColor
  align : Pos := 0
  width : Int := 0
  height : Int := 0
  maxWidth : Int := 0
  maxHeight : Int := 0
  paddingTop : Int := 0
  paddingRight : Int := 0
  paddingBottom : Int := 0
  paddingLeft : Int := 0
  marginTop : Int := 0
  marginRight : Int := 0
  marginBottom : Int := 0
  marginLeft : Int := 0
  borderStyle : Border := Border.empty
  borderTop : Bool := false
  borderRight : Bool := false
  borderBottom : Bool := false
  borderLeft : Bool := false
  borderTopForeground : TerminalColor := .noColor
  borderRightForeground : TerminalColor := .noColor
  borderBottomForeground : TerminalColor := .noColor
  borderLeftForeground : TerminalColor := .noColor
  borderTopBackground : TerminalColor := .noColor
  borderRightBackground : TerminalColor := .noColor
  borderBottomBackground : TerminalColor := .noColor
  borderLeftBackground : TerminalColor := .noColor
deriving DecidableEq, Repr

/-- `lipgloss.NewStyle()`: the default (empty) style. -/
def defaultStyle : Style := {}

/-- A parsed argument value (`reflect.Value` in the source): one per
argument kind (spec §3). -/
inductive Value where
  | vInt (i : Int)
  | vBool (b : Bool)
  | vPos (p : Pos)
  | vColor (c : TerminalColor)
  | vBorder (b : Border)
deriving DecidableEq, Repr

/-! ## The token regexes

Every scalar regex of the source has the shape `^\s*(ALT)(?:\s+|$)` where
`ALT` is a whitespace-free alternation.  Under Go's leftmost-first matching
with backtracking, such a pattern matches iff the first whitespace-delimited
word of the input is exactly one of the alternatives: an alternative that
matched only a proper prefix of the word would be followed by a
non-whitespace, non-end position, failing `(?:\s+|$)`.  The submatch is that
word and the whole match additionally consumes the leading and the (maximal)
trailing whitespace run. -/

/-- Generic matcher for `^\s*(ALT)(?:\s+|$)` patterns (see above): returns
the total number of consumed runes and the submatched word. -/
def tokenMatch (valid : List Char → Bool) (l : List Char) : Option (Nat × List Char) :=
  let nws := (l.takeWhile isWS).length
  let rest := l.drop nws
  let w := rest.takeWhile (fun c => !(isWS c))
  if w.isEmpty then none
  else if valid w then
    let rest2 := rest.drop w.length
    some (nws + w.length + (rest2.takeWhile isWS).length, w)
  else none

/-- Word form of `reInt`'s group: `[0-9]+`. -/
def isIntWord (w : List Char) : Bool := !w.isEmpty && w.all isDigitC

/-- Word form of `reBool`'s group:
`1|[tT]|TRUE|[tT]rue|0|[fF]|FALSE|[fF]alse`. -/
def isBoolWord (w : List Char) : Bool :=
  ["1", "t", "T", "TRUE", "true", "True",
   "0", "f", "F", "FALSE", "false", "False"].any (fun s => w = s.data)

/-- Word form of `rePos`'s group:
`top|bottom|center|left|right|1|1\.0|0\.5|\.5|0|0\.0|\.0`. -/
def isPosWord (w : List Char) : Bool :=
  ["top", "bottom", "center", "left", "right",
   "1", "1.0", "0.5", ".5", "0", "0.0", ".0"].any (fun s => w = s.data)

/-- Word form of `reColor`'s group: `\d+|#[0-9a-fA-F]{3}|#[0-9a-fA-F]{6}`. -/
def isColorWord (w : List Char) : Bool :=
  (!w.isEmpty && w.all isDigitC) ||
  (match w with
   | '#' :: h => (h.length = 3 || h.length = 6) && h.all isHexC
   | _ => false)

/-- Word form of `reColorOrNone`'s group: `none` or a `reColor` word. -/
def isColorOrNoneWord (w : List Char) : Bool :=
  w = "none".data || isColorWord w

/-- Word form of `reSpecialBorder`'s group:
`rounded|normal|thick|hidden|double`. -/
def isSpecialBorderWord (w : List Char) : Bool :=
  ["rounded", "normal", "thick", "hidden", "double"].any (fun s => w = s.data)

/-- `reColor.MatchString(s)`: the pattern `^\s*(...)(?:\s+|$)` is anchored at
the start only, so it holds iff the first whitespace-delimited word of `s` is
a color token — content after that word's trailing whitespace is allowed. -/
def reColorMatch (l : List Char) : Bool :=
  isColorWord ((l.dropWhile isWS).takeWhile (fun c => !(isWS c)))

/-- `reAdaptive = ^\s*(?:adaptive\s*\(([^,]*),([^,]*)\))(?:\s+|$)`.
Group 1 is everything up to the first comma after the opening parenthesis
(`[^,]*` cannot cross a comma, and giving back characters would place a
non-comma at the required literal `','`).  Group 2 is the longest comma-free
run that is followed by a literal `')'` and then a whitespace rune or the end
of the input (greedy `[^,]*` with backtracking tries long matches first).
Returns (consumed runes, group 1, group 2). -/
def adaptiveMatch (l : List Char) : Option (Nat × List Char × List Char) :=
  let nws := (l.takeWhile isWS).length
  let r1 := l.drop nws
  if "adaptive".data.isPrefixOf r1 then
    let r2 := r1.drop 8
    let nws2 := (r2.takeWhile isWS).length
    let r3 := r2.drop nws2
    match r3 with
    | '(' :: r4 =>
      let g1 := r4.takeWhile (fun c => c ≠ ',')
      match r4.drop g1.length with
      | ',' :: r5 =>
        let run := r5.takeWhile (fun c => c ≠ ',')
        match (List.range run.length).reverse.find? (fun k =>
            run.getD k ' ' = ')' &&
            (match r5.drop (k + 1) with
             | [] => true
             | c :: _ => isWS c)) with
        | none => none
        | some k =>
          let after := r5.drop (k + 1)
          let nws3 := (after.takeWhile isWS).length
          some (nws + 8 + nws2 + 1 + g1.length + 1 + k + 1 + nws3, g1, run.take k)
      | _ => none
    | _ => none
  else none

/-! ## The border regex and `strconv.Unquote` -/

/-- Body of a `reBorderStr` quoted field after the opening `"`:
`(?:\\[\\"]|\\[0-7]{3}|\\x[0-9a-fA-F]{2}|\\u[0-9]{4}|\\U[0-9]{8}|[^\\"])*"`.
The alternatives are mutually exclusive at each position (the escape
alternatives are distinguished by the character after the backslash, a `"`
can only be consumed inside `\\[\\"]`, and `[^\\"]` excludes both special
characters), so the starred group is deterministic.  Note the source regex
demands four/eight *decimal* digits after `\u`/`\U`.  Returns the number of
runes consumed up to and including the closing quote.  The fuel argument
only serves structural termination; `l.length` suffices since every step
consumes at least one rune. -/
def qstrBody : Nat → List Char → Option Nat
  | 0, _ => none
  | _, [] => none
  | fuel + 1, c :: rest =>
    if c = '"' then some 1
    else if c = '\\' then
      match rest with
      | [] => none
      | d :: rest2 =>
        if d = '\\' || d = '"' then (qstrBody fuel rest2).map (· + 2)
        else if isOctalC d && (rest2.take 2).length = 2 && (rest2.take 2).all isOctalC then
          (qstrBody fuel (rest2.drop 2)).map (· + 4)
        else if d = 'x' && (rest2.take 2).length = 2 && (rest2.take 2).all isHexC then
          (qstrBody fuel (rest2.drop 2)).map (· + 4)
        else if d = 'u' && (rest2.take 4).length = 4 && (rest2.take 4).all isDigitC then
          (qstrBody fuel (rest2.drop 4)).map (· + 6)
        else if d = 'U' && (rest2.take 8).length = 8 && (rest2.take 8).all isDigitC then
          (qstrBody fuel (rest2.drop 8)).map (· + 10)
        else none
    else (qstrBody fuel rest).map (· + 1)

/-- One `reBorderStr` quoted field anchored at the head of `l`: the number of
runes consumed including both quotes. -/
def qstrMatch (l : List Char) : Option Nat :=
  match l with
  | '"' :: rest => (qstrBody (rest.length + 1) rest).map (· + 1)
  | _ => none

/-- `strconv.Unquote` restricted to the strings admitted by `reBorderStr`
(input includes the surrounding quotes).  Escapes decode as in Go:
`\\`/`\"` to the bare character, `\NNN` as octal (values above 255 are
`strconv.ErrSyntax`, message `invalid syntax`), `\xNN`, `\uNNNN` and
`\UNNNNNNNN` as hexadecimal (code points above `0x10FFFF` are rejected;
surrogates cannot arise from decimal-digit-only escape bodies).  Byte-valued
escapes (`\NNN`, `\xNN`) are modelled as code points, exact for the ASCII
values the repository exercises.  The fuel argument mirrors `qstrBody`. -/
def unquoteBody : Nat → List Char → Except String (List Char)
  | 0, _ => Except.error "invalid syntax"
  | _, [] => Except.ok []
  | fuel + 1, c :: rest =>
    if c = '\\' then
      match rest with
      | [] => Except.error "invalid syntax"
      | d :: rest2 =>
        if d = '\\' || d = '"' then (unquoteBody fuel rest2).map (d :: ·)
        else if isOctalC d then
          let ds := d :: rest2.take 2
          let v := ds.foldl (fun acc e => 8 * acc + digitVal e) 0
          if v > 255 then Except.error "invalid syntax"
          else (unquoteBody fuel (rest2.drop 2)).map (Char.ofNat v :: ·)
        else if d = 'x' then
          (unquoteBody fuel (rest2.drop 2)).map (Char.ofNat (hexValL (rest2.take 2)) :: ·)
        else if d = 'u' then
          (unquoteBody fuel (rest2.drop 4)).map (Char.ofNat (hexValL (rest2.take 4)) :: ·)
        else if d = 'U' then
          let v := hexValL (rest2.take 8)
          if v > 0x10FFFF then Except.error "invalid syntax"
          else (unquoteBody fuel (rest2.drop 8)).map (Char.ofNat v :: ·)
        else Except.error "invalid syntax"
    else (unquoteBody fuel rest).map (c :: ·)

/-- `strconv.Unquote` on a `reBorderStr` field (with its quotes). -/
def unquoteField (l : List Char) : Except String String :=
  match l with
  | '"' :: rest =>
    (unquoteBody (rest.length + 1) (rest.dropLast)).map String.mk
  | _ => Except.error "invalid syntax"

/-- `reBorder`: `^\s*(?:border\s*\(\s*(Q)\s*,\s*(Q)\s*,...\s*,\s*(Q)\s*\))(?:\s+|$)`
with eight `Q = reBorderStr` fields.  `borderFields n l` matches
`(Q)(?:\s*,\s*(Q)){n-1}\s*\)` and returns (consumed runes including the
closing parenthesis, the raw quoted fields). -/
def borderFields : Nat → List Char → Option (Nat × List (List Char))
  | 0, _ => none
  | n + 1, l =>
    match qstrMatch l with
    | none => none
    | some q =>
      let rest := l.drop q
      let nws := (rest.takeWhile isWS).length
      let rest2 := rest.drop nws
      if n = 0 then
        match rest2 with
        | ')' :: _ => some (q + nws + 1, [l.take q])
        | _ => none
      else
        match rest2 with
        | ',' :: rest3 =>
          let nws2 := (rest3.takeWhile isWS).length
          match borderFields n (rest3.drop nws2) with
          | none => none
          | some (m, fs) => some (q + nws + 1 + nws2 + m, l.take q :: fs)
        | _ => none

/-- The full `reBorder` match anchored at the head of `l`: returns
(consumed runes, the eight raw quoted fields). -/
def borderMatch (l : List Char) : Option (Nat × List (List Char)) :=
  let nws := (l.takeWhile isWS).length
  let r1 := l.drop nws
  if "border".data.isPrefixOf r1 then
    let r2 := r1.drop 6
    let nws2 := (r2.takeWhile isWS).length
    match r2.drop nws2 with
    | '(' :: r3 =>
      let nws3 := (r3.takeWhile isWS).length
      match borderFields 8 (r3.drop nws3) with
      | none => none
      | some (m, fs) =>
        let after := r3.drop (nws3 + m)
        match after with
        | [] => some (nws + 6 + nws2 + 1 + nws3 + m, fs)
        | c :: _ =>
          if isWS c then
            some (nws + 6 + nws2 + 1 + nws3 + m + (after.takeWhile isWS).length, fs)
          else none
    | _ => none
  else none

/-! ## Value parsers (`argtype.parse`, source lines 257-440)

Each parser receives the full argument text and the current position and
returns the new position together with the parsed value, or an error
(`parse(input []byte, first int) (int, reflect.Value, error)`).  On error the
Go parsers also return a position, which every caller discards. -/

/-- `inttype.parse`: `reInt` then `strconv.Atoi` (which can only fail with
`value out of range` on a matched digit string, for values above
`2^63 - 1`). -/
def inttype.parse (input : List Char) (first : Nat) : Except String (Nat × Value) :=
  match tokenMatch isIntWord (input.drop first) with
  | none => Except.error "no value found"
  | some (n, w) =>
    if decVal w > 2 ^ 63 - 1 then
      Except.error ("strconv.Atoi: parsing " ++ goQuote (String.mk w) ++ ": value out of range")
    else Except.ok (first + n, Value.vInt (decVal w))

/-- `booltype.parse`: `reBool` then `strconv.ParseBool`.  The regex admits
exactly the spellings `ParseBool` accepts, so the parse of a matched word
never fails: `1`, `t`, `T`, `TRUE`, `true`, `True` are true, the rest
false. -/
def booltype.parse (input : List Char) (first : Nat) : Except String (Nat × Value) :=
  match tokenMatch isBoolWord (input.drop first) with
  | none => Except.error "no value found"
  | some (n, w) =>
    let b := ["1", "t", "T", "TRUE", "true", "True"].any (fun s => w = s.data)
    Except.ok (first + n, Value.vBool b)

/-- `postype.parse`: `rePos`, then the keyword table
(`top`/`left` are `lipgloss.Top`/`Left` = 0, `bottom`/`right` are 1,
`center` is 0.5), otherwise `strconv.ParseFloat` on the matched numeric
literal (one of `1`, `1.0`, `0.5`, `.5`, `0`, `0.0`, `.0`, on which
`ParseFloat` cannot fail). -/
def postype.parse (input : List Char) (first : Nat) : Except String (Nat × Value) :=
  match tokenMatch isPosWord (input.drop first) with
  | none => Except.error "no value found"
  | some (n, w) =>
    let p : Pos :=
      if w = "top".data || w = "left".data then 0
      else if w = "bottom".data || w = "right".data then 1
      else if w = "center".data then mkRat 1 2
      else if w = "1".data || w = "1.0".data then 1
      else if w = "0.5".data || w = ".5".data then mkRat 1 2
      else 0
    Except.ok (first + n, Value.vPos p)

/-- `colortype.parse`: try `reAdaptive` first (each component is
`strings.TrimSpace`d and then validated with `reColor.MatchString`, a hard
error naming the component); otherwise `reColorOrNone`, whose failure is the
bare `color not recognized` error (no token text), `none` mapping to
`lipgloss.NoColor{}` and any other matched word to `lipgloss.Color(word)`
(the inner `reColor` re-check cannot fail on a word `reColorOrNone`
matched). -/
def colortype.parse (input : List Char) (first : Nat) : Except String (Nat × Value) :=
  match adaptiveMatch (input.drop first) with
  | some (n, g1, g2) =>
    let firstValue := trimSpace g1
    if !reColorMatch firstValue then
      Except.error ("color not recognized: " ++ goQuote (String.mk firstValue))
    else
      let secondValue := trimSpace g2
      if !reColorMatch secondValue then
        Except.error ("color not recognized: " ++ goQuote (String.mk secondValue))
      else
        Except.ok (first + n,
          Value.vColor (TerminalColor.adaptive (String.mk firstValue) (String.mk secondValue)))
  | none =>
    match tokenMatch isColorOrNoneWord (input.drop first) with
    | none => Except.error "color not recognized"
    | some (n, w) =>
      if w = "none".data then Except.ok (first + n, Value.vColor TerminalColor.noColor)
      else if isColorWord w then
        Except.ok (first + n, Value.vColor (TerminalColor.color (String.mk w)))
      else Except.error ("color not recognized: " ++ goQuote (String.mk w))

/-- `lipgloss.RoundedBorder()` (glyph order: top, bottom, left, right,
top-left, top-right, bottom-right, bottom-left). -/
def roundedBorder : Border := ⟨"─", "─", "│", "│", "╭", "╮", "╯", "╰"⟩

/-- `lipgloss.NormalBorder()`. -/
def normalBorder : Border := ⟨"─", "─", "│", "│", "┌", "┐", "┘", "└"⟩

/-- `lipgloss.ThickBorder()`. -/
def thickBorder : Border := ⟨"━", "━", "┃", "┃", "┏", "┓", "┛", "┗"⟩

/-- `lipgloss.DoubleBorder()`. -/
def doubleBorder : Border := ⟨"═", "═", "║", "║", "╔", "╗", "╝", "╚"⟩

/-- `lipgloss.HiddenBorder()`: all blank glyphs. -/
def hiddenBorder : Border := ⟨" ", " ", " ", " ", " ", " ", " ", " "⟩

/-- `bordertype.parse`: try `reSpecialBorder` first, mapping the preset name
to the lipgloss preset border (the switch's `unrecognized border name`
default is unreachable since the regex only admits the five names);
otherwise require the full `reBorder` 8-tuple, `strconv.Unquote`-ing each
field into the `lipgloss.Border` fields in the order top, bottom, left,
right, top-left, top-right, bottom-right, bottom-left, and failing with the
first unquote error.  When neither regex matches the error is
`no valid border value found`. -/
def bordertype.parse (input : List Char) (first : Nat) : Except String (Nat × Value) :=
  match tokenMatch isSpecialBorderWord (input.drop first) with
  | some (n, w) =>
    let b :=
      if w = "rounded".data then roundedBorder
      else if w = "normal".data then normalBorder
      else if w = "thick".data then thickBorder
      else if w = "hidden".data then hiddenBorder
      else doubleBorder
    Except.ok (first + n, Value.vBorder b)
  | none =>
    match borderMatch (input.drop first) with
    | none => Except.error "no valid border value found"
    | some (n, fs) =>
      match fs with
      | [f1, f2, f3, f4, f5, f6, f7, f8] => do
        let top ← unquoteField f1
        let bottom ← unquoteField f2
        let left ← unquoteField f3
        let right ← unquoteField f4
        let topLeft ← unquoteField f5
        let topRight ← unquoteField f6
        let bottomRight ← unquoteField f7
        let bottomLeft ← unquoteField f8
        Except.ok (first + n,
          Value.vBorder ⟨top, bottom, left, right, topLeft, topRight, bottomRight, bottomLeft⟩)
      | _ => Except.error "no valid border value found"

/-- The argument kinds (`argtype` implementations, source lines 257-440). -/
inductive argtype where
  | inttype
  | booltype
  | postype
  | colortype
  | bordertype
deriving DecidableEq, Repr

/-- Dispatch of `argtype.parse` over the five implementations. -/
def argtype.parse : argtype → List Char → Nat → Except String (Nat × Value)
  | .inttype => inttype.parse
  | .booltype => booltype.parse
  | .postype => postype.parse
  | .colortype => colortype.parse
  | .bordertype => bordertype.parse

/-! ## The lipgloss setter surface (external collaborator)

The source discovers properties by reflecting over `lipgloss.Style`'s
methods (`discoverProp`, source lines 195-253).  The collaborator is out of
scope for the spec (§1), so its method surface (lipgloss v0.5, pinned by
`src/convert_test.go`) is tabulated here: each entry records the argument
kinds `discoverProp` infers from the Go signature, the variadic flag, the
setter's semantics, and the unsetters found by the `Unset<Name>` lookup.
The four derived size getters (`GetBorderTopWidth`, `GetBorder*Size`) have
no corresponding setter methods on `lipgloss.Style`, so those kebab-case
names resolve to nothing. -/

/-- `whichSidesBool` (lipgloss): CSS-shorthand expansion of 1-4 boolean
side flags into (top, right, bottom, left, ok). -/
def whichSidesBool (l : List Bool) : Bool × Bool × Bool × Bool × Bool :=
  match l with
  | [a] => (a, a, a, a, true)
  | [v, h] => (v, h, v, h, true)
  | [t, h, b] => (t, h, b, h, true)
  | [t, r, b, lft] => (t, r, b, lft, true)
  | _ => (false, false, false, false, false)

/-- `whichSidesInt` (lipgloss): CSS-shorthand expansion of 1-4 integer side
values into (top, right, bottom, left, ok). -/
def whichSidesInt (l : List Int) : Int × Int × Int × Int × Bool :=
  match l with
  | [a] => (a, a, a, a, true)
  | [v, h] => (v, h, v, h, true)
  | [t, h, b] => (t, h, b, h, true)
  | [t, r, b, lft] => (t, r, b, lft, true)
  | _ => (0, 0, 0, 0, false)

/-- `lipgloss.Style.Border(b Border, sides ...bool)`: sets the border style,
then expands the side flags with `whichSidesBool` (no flags, or an
unsupported count, leaves the initial all-true) and sets the four border
side flags. -/
def styleBorder (s : Style) (b : Border) (sides : List Bool) : Style :=
  let s := { s with borderStyle := b }
  let r := if sides.isEmpty then (true, true, true, true, true) else whichSidesBool sides
  let (top, right, bottom, lft, ok) := r
  if ok then
    { s with borderTop := top, borderRight := right, borderBottom := bottom, borderLeft := lft }
  else
    { s with borderTop := true, borderRight := true, borderBottom := true, borderLeft := true }

/-- `lipgloss.Style.Margin(i ...int)`: expands with `whichSidesInt`; an
unsupported count is a no-op. -/
def styleMargin (s : Style) (vals : List Int) : Style :=
  let (t, r, b, lft, ok) := whichSidesInt vals
  if ok then
    { s with marginTop := t, marginRight := r, marginBottom := b, marginLeft := lft }
  else s

/-- `lipgloss.Style.Padding(i ...int)`: expands with `whichSidesInt`; an
unsupported count is a no-op. -/
def stylePadding (s : Style) (vals : List Int) : Style :=
  let (t, r, b, lft, ok) := whichSidesInt vals
  if ok then
    { s with paddingTop := t, paddingRight := r, paddingBottom := b, paddingLeft := lft }
  else s

/-- `lipgloss.Style.BorderForeground(c ...TerminalColor)`: expands the 1-4
colors over the four sides like `whichSides*`; an unsupported count is a
no-op. -/
def styleBorderForeground (s : Style) (vals : List TerminalColor) : Style :=
  match vals with
  | [a] => { s with borderTopForeground := a, borderRightForeground := a,
                    borderBottomForeground := a, borderLeftForeground := a }
  | [v, h] => { s with borderTopForeground := v, borderRightForeground := h,
                       borderBottomForeground := v, borderLeftForeground := h }
  | [t, h, b] => { s with borderTopForeground := t, borderRightForeground := h,
                          borderBottomForeground := b, borderLeftForeground := h }
  | [t, r, b, lft] => { s with borderTopForeground := t, borderRightForeground := r,
                               borderBottomForeground := b, borderLeftForeground := lft }
  | _ => s

/-- `lipgloss.Style.BorderBackground(c ...TerminalColor)`: like
`styleBorderForeground` for the background attributes. -/
def styleBorderBackground (s : Style) (vals : List TerminalColor) : Style :=
  match vals with
  | [a] => { s with borderTopBackground := a, borderRightBackground := a,
                    borderBottomBackground := a, borderLeftBackground := a }
  | [v, h] => { s with borderTopBackground := v, borderRightBackground := h,
                       borderBottomBackground := v, borderLeftBackground := h }
  | [t, h, b] => { s with borderTopBackground := t, borderRightBackground := h,
                          borderBottomBackground := b, borderLeftBackground := h }
  | [t, r, b, lft] => { s with borderTopBackground := t, borderRightBackground := r,
                               borderBottomBackground := b, borderLeftBackground := lft }
  | _ => s

/-- Coerce a parsed value list to booleans (for variadic `...bool` setters;
`prop.assign` only ever supplies values of the declared kind). -/
def valsToBools (vals : List Value) : List Bool :=
  vals.map (fun v => match v with | .vBool b => b | _ => false)

/-- Coerce a parsed value list to integers. -/
def valsToInts (vals : List Value) : List Int :=
  vals.map (fun v => match v with | .vInt i => i | _ => 0)

/-- Coerce a parsed value list to colors. -/
def valsToColors (vals : List Value) : List TerminalColor :=
  vals.map (fun v => match v with | .vColor c => c | _ => TerminalColor.noColor)

/-- First parsed value as a boolean. -/
def val1Bool (vals : List Value) : Bool :=
  match vals with | .vBool b :: _ => b | _ => false

/-- First parsed value as an integer. -/
def val1Int (vals : List Value) : Int :=
  match vals with | .vInt i :: _ => i | _ => 0

/-- First parsed value as a color. -/
def val1Color (vals : List Value) : TerminalColor :=
  match vals with | .vColor c :: _ => c | _ => TerminalColor.noColor

/-- First parsed value as a position. -/
def val1Pos (vals : List Value) : Pos :=
  match vals with | .vPos p :: _ => p | _ => 0

/-- First parsed value as a border. -/
def val1Border (vals : List Value) : Border :=
  match vals with | .vBorder b :: _ => b | _ => Border.empty

/-! ## Property descriptors and discovery -/

/-- `camelCase` (source lines 443-458): `hello-world` to `HelloWorld`.
The inputs in scope are ASCII, where `Char.toUpper` agrees with Go's
`unicode.ToUpper`. -/
def camelCaseL (cap : Bool) : List Char → List Char
  | [] => []
  | c :: rest =>
    if c = '-' then camelCaseL true rest
    else (if cap then c.toUpper else c) :: camelCaseL false rest

/-- `camelCase` on a `String` (capitalization starts on). -/
def camelCase (s : String) : String := String.mk (camelCaseL true s.data)

/-- `snakeCase` (source lines 461-473): `HelloWorld` to `hello-world`.
`nonEmpty` models `buf.Len() > 0` (no dash before the first rune). -/
def snakeCaseL (nonEmpty : Bool) : List Char → List Char
  | [] => []
  | c :: rest =>
    if c.isUpper then
      (if nonEmpty then ['-', c.toLower] else [c.toLower]) ++ snakeCaseL true rest
    else c :: snakeCaseL true rest

/-- `snakeCase` on a `String`. -/
def snakeCase (s : String) : String := String.mk (snakeCaseL false s.data)

/-- The `prop` descriptor (source lines 477-482): setter, optional unsetter,
variadic flag and the ordered argument kinds.  `setFn` abstracts the
`reflect.Value` method call: it receives the style and the parsed argument
values. -/
structure prop where
  setFn : Style → List Value → Style
  unsetFn : Option (Style → Style)
  isVariadic : Bool
  args : List argtype

/-- `reflect.Type.MethodByName` on `lipgloss.Style` (v0.5) combined with the
argument-kind classification of `discoverProp` (source lines 214-250): for
each CamelCase setter name, the argument kinds read off the Go signature,
the variadic flag, the setter semantics and the `Unset<Name>` method when
lipgloss declares one (`Margin` has none: the lipgloss unsetter is the
differently-named `UnsetMargins`).  Names that are not `Style`-returning
settable methods — in particular `BorderTopWidth`, `BorderBottomSize`,
`BorderLeftSize` and `BorderRightSize`, which exist only as getters — are
absent. -/
def methodByName : String → Option prop
  | "Align" => some ⟨fun s v => { s with align := val1Pos v },
      some (fun s => { s with align := 0 }), false, [.postype]⟩
  | "Background" => some ⟨fun s v => { s with background := val1Color v },
      some (fun s => { s with background := .noColor }), false, [.colortype]⟩
  | "Blink" => some ⟨fun s v => { s with blink := val1Bool v },
      some (fun s => { s with blink := false }), false, [.booltype]⟩
  | "Bold" => some ⟨fun s v => { s with bold := val1Bool v },
      some (fun s => { s with bold := false }), false, [.booltype]⟩
  | "Border" => some ⟨fun s v => styleBorder s (val1Border v) (valsToBools v.tail),
      none, true, [.bordertype, .booltype]⟩
  | "BorderBackground" => some ⟨fun s v => styleBorderBackground s (valsToColors v),
      none, true, [.colortype]⟩
  | "BorderBottom" => some ⟨fun s v => { s with borderBottom := val1Bool v },
      some (fun s => { s with borderBottom := false }), false, [.booltype]⟩
  | "BorderBottomBackground" => some ⟨fun s v => { s with borderBottomBackground := val1Color v },
      some (fun s => { s with borderBottomBackground := .noColor }), false, [.colortype]⟩
  | "BorderBottomForeground" => some ⟨fun s v => { s with borderBottomForeground := val1Color v },
      some (fun s => { s with borderBottomForeground := .noColor }), false, [.colortype]⟩
  | "BorderForeground" => some ⟨fun s v => styleBorderForeground s (valsToColors v),
      none, true, [.colortype]⟩
  | "BorderLeft" => some ⟨fun s v => { s with borderLeft := val1Bool v },
      some (fun s => { s with borderLeft := false }), false, [.booltype]⟩
  | "BorderLeftBackground" => some ⟨fun s v => { s with borderLeftBackground := val1Color v },
      some (fun s => { s with borderLeftBackground := .noColor }), false, [.colortype]⟩
  | "BorderLeftForeground" => some ⟨fun s v => { s with borderLeftForeground := val1Color v },
      some (fun s => { s with borderLeftForeground := .noColor }), false, [.colortype]⟩
  | "BorderRight" => some ⟨fun s v => { s with borderRight := val1Bool v },
      some (fun s => { s with borderRight := false }), false, [.booltype]⟩
  | "BorderRightBackground" => some ⟨fun s v => { s with borderRightBackground := val1Color v },
      some (fun s => { s with borderRightBackground := .noColor }), false, [.colortype]⟩
  | "BorderRightForeground" => some ⟨fun s v => { s with borderRightForeground := val1Color v },
      some (fun s => { s with borderRightForeground := .noColor }), false, [.colortype]⟩
  | "BorderStyle" => some ⟨fun s v => { s with borderStyle := val1Border v },
      some (fun s => { s with borderStyle := Border.empty }), false, [.bordertype]⟩
  | "BorderTop" => some ⟨fun s v => { s with borderTop := val1Bool v },
      some (fun s => { s with borderTop := false }), false, [.booltype]⟩
  | "BorderTopBackground" => some ⟨fun s v => { s with borderTopBackground := val1Color v },
      some (fun s => { s with borderTopBackground := .noColor }), false, [.colortype]⟩
  | "BorderTopForeground" => some ⟨fun s v => { s with borderTopForeground := val1Color v },
      some (fun s => { s with borderTopForeground := .noColor }), false, [.colortype]⟩
  | "ColorWhitespace" => some ⟨fun s v => { s with colorWhitespace := val1Bool v },
      some (fun s => { s with colorWhitespace := false }), false, [.booltype]⟩
  | "Faint" => some ⟨fun s v => { s with faint := val1Bool v },
      some (fun s => { s with faint := false }), false, [.booltype]⟩
  | "Foreground" => some ⟨fun s v => { s with foreground := val1Color v },
      some (fun s => { s with foreground := .noColor }), false, [.colortype]⟩
  | "Height" => some ⟨fun s v => { s with height := val1Int v },
      some (fun s => { s with height := 0 }), false, [.inttype]⟩
  | "Inline" => some ⟨fun s v => { s with inline := val1Bool v },
      some (fun s => { s with inline := false }), false, [.booltype]⟩
  | "Italic" => some ⟨fun s v => { s with italic := val1Bool v },
      some (fun s => { s with italic := false }), false, [.booltype]⟩
  | "Margin" => some ⟨fun s v => styleMargin s (valsToInts v), none, true, [.inttype]⟩
  | "MarginBottom" => some ⟨fun s v => { s with marginBottom := val1Int v },
      some (fun s => { s with marginBottom := 0 }), false, [.inttype]⟩
  | "MarginLeft" => some ⟨fun s v => { s with marginLeft := val1Int v },
      some (fun s => { s with marginLeft := 0 }), false, [.inttype]⟩
  | "MarginRight" => some ⟨fun s v => { s with marginRight := val1Int v },
      some (fun s => { s with marginRight := 0 }), false, [.inttype]⟩
  | "MarginTop" => some ⟨fun s v => { s with marginTop := val1Int v },
      some (fun s => { s with marginTop := 0 }), false, [.inttype]⟩
  | "MaxHeight" => some ⟨fun s v => { s with maxHeight := val1Int v },
      some (fun s => { s with maxHeight := 0 }), false, [.inttype]⟩
  | "MaxWidth" => some ⟨fun s v => { s with maxWidth := val1Int v },
      some (fun s => { s with maxWidth := 0 }), false, [.inttype]⟩
  | "Padding" => some ⟨fun s v => stylePadding s (valsToInts v),
      some (fun s => { s with paddingTop := 0, paddingRight := 0,
                              paddingBottom := 0, paddingLeft := 0 }), true, [.inttype]⟩
  | "PaddingBottom" => some ⟨fun s v => { s with paddingBottom := val1Int v },
      some (fun s => { s with paddingBottom := 0 }), false, [.inttype]⟩
  | "PaddingLeft" => some ⟨fun s v => { s with paddingLeft := val1Int v },
      some (fun s => { s with paddingLeft := 0 }), false, [.inttype]⟩
  | "PaddingRight" => some ⟨fun s v => { s with paddingRight := val1Int v },
      some (fun s => { s with paddingRight := 0 }), false, [.inttype]⟩
  | "PaddingTop" => some ⟨fun s v => { s with paddingTop := val1Int v },
      some (fun s => { s with paddingTop := 0 }), false, [.inttype]⟩
  | "Reverse" => some ⟨fun s v => { s with reverse := val1Bool v },
      some (fun s => { s with reverse := false }), false, [.booltype]⟩
  | "Strikethrough" => some ⟨fun s v => { s with strikethrough := val1Bool v },
      some (fun s => { s with strikethrough := false }), false, [.booltype]⟩
  | "StrikethroughSpaces" => some ⟨fun s v => { s with strikethroughSpaces := val1Bool v },
      some (fun s => { s with strikethroughSpaces := false }), false, [.booltype]⟩
  | "Underline" => some ⟨fun s v => { s with underline := val1Bool v },
      some (fun s => { s with underline := false }), false, [.booltype]⟩
  | "UnderlineSpaces" => some ⟨fun s v => { s with underlineSpaces := val1Bool v },
      some (fun s => { s with underlineSpaces := false }), false, [.booltype]⟩
  | "Width" => some ⟨fun s v => { s with width := val1Int v },
      some (fun s => { s with width := 0 }), false, [.inttype]⟩
  | _ => none

/-- `discoverProp` (source lines 195-253): the three prefix guard clauses,
then CamelCase conversion and method lookup.  Note the `set-` message has
two spaces before `use` and the `get-` guard produces the same
`property not supported` error as a missing method. -/
def discoverProp (name : String) : Except String prop :=
  if "set-".data.isPrefixOf name.data then
    Except.error "don't use 'set-xx: foo;'  use 'xx: foo;' instead"
  else if "unset-".data.isPrefixOf name.data then
    Except.error "don't use 'unset-xx: foo;' use 'xx: unset;' instead"
  else if "get-".data.isPrefixOf name.data then
    Except.error ("property not supported: " ++ goQuote name)
  else
    match methodByName (camelCase name) with
    | none => Except.error ("property not supported: " ++ goQuote name)
    | some p => Except.ok p

/-- `getProp` (source lines 183-193): the static `propRegistry` is empty
(source line 475), so resolution always goes through discovery. -/
def getProp (name : String) : Except String prop := discoverProp name

/-! ## Directive application (`prop.assign`, `Import`) -/

/-- The fixed-arity argument loop of `prop.assign` (source lines 500-515):
for each declared kind, if the input is exhausted then a trailing variadic
kind may have zero occurrences, otherwise the error is `missing value`;
a parse error aborts the directive. -/
def parseFixedArgs (isVar : Bool) (input : List Char) :
    List argtype → Nat → Except String (Nat × List Value)
  | [], pos => Except.ok (pos, [])
  | k :: rest, pos =>
    if pos ≥ input.length then
      if isVar && rest.isEmpty then Except.ok (pos, [])
      else Except.error "missing value"
    else do
      let (pos', v) ← k.parse input pos
      let (pos'', vs) ← parseFixedArgs isVar input rest pos'
      Except.ok (pos'', v :: vs)

/-- The trailing variadic loop of `prop.assign` (source lines 516-526):
repeat the last argument kind while input remains.  The Go loop terminates
because every successful parse consumes at least one byte, so
`input.length + 1` steps of fuel always suffice; the fuel-exhaustion branch
is unreachable. -/
def parseVariadic (k : argtype) (input : List Char) :
    Nat → Nat → Except String (Nat × List Value)
  | 0, pos => Except.ok (pos, [])
  | fuel + 1, pos =>
    if pos < input.length then do
      let (pos', v) ← k.parse input pos
      let (pos'', vs) ← parseVariadic k input fuel pos'
      Except.ok (pos'', v :: vs)
    else Except.ok (pos, [])

/-- The argument-reading phase of `prop.assign` (source lines 495-529): the
fixed loop, then the variadic loop, then the excess-input check.  Only after
all of these succeed is the setter invoked. -/
def prop.parseArgs (p : prop) (input : List Char) : Except String (List Value) := do
  let (pos, vals) ← parseFixedArgs p.isVariadic input p.args 0
  let (pos2, vals2) ←
    if p.isVariadic then
      match p.args.getLast? with
      | some k => parseVariadic k input (input.length + 1) pos
      | none => Except.ok (pos, [])
    else Except.ok (pos, [])
  if pos2 < input.length then
    Except.error ("excess values at end: ..." ++ String.mk (input.drop pos2))
  else
    Except.ok (vals ++ vals2)

/-- `prop.assign` (source lines 484-534).  The literal argument text `unset`
invokes the unsetter (an error when the property has none); otherwise the
arguments are parsed and — only on full success — the setter is applied.
Mirroring the Go `return dst, err` statements, every error path returns the
incoming style unchanged. -/
def prop.assign (p : prop) (dst : Style) (args : String) : Style × Option String :=
  if args = "unset" then
    match p.unsetFn with
    | none => (dst, some "no unset method defined")
    | some u => (u dst, none)
  else
    match p.parseArgs args.data with
    | Except.error e => (dst, some e)
    | Except.ok vals => (p.setFn dst vals, none)

/-- The loop body of `Import` (source lines 22-50) for one `;`-separated
segment: trim, skip empty segments, handle the `clear` keyword, split at the
first colon (missing colon is `invalid syntax`), resolve the property and
apply `prop.assign`; resolution and assignment errors are wrapped with the
quoted offending segment. -/
def applyDirective (dst : Style) (a0 : List Char) : Style × Option String :=
  let a := trimSpace a0
  if a.isEmpty then (dst, none)
  else if a = "clear".data then (defaultStyle, none)
  else
    match splitFirstColon a with
    | none => (dst, some ("invalid syntax: " ++ String.mk (goQuoteL a)))
    | some (rawName, rawArgs) =>
      let propName := String.mk (trimSpace rawName)
      let args := String.mk (trimSpace rawArgs)
      match getProp propName with
      | Except.error err => (dst, some ("in " ++ String.mk (goQuoteL a) ++ ": " ++ err))
      | Except.ok p =>
        match p.assign dst args with
        | (d, some err) => (d, some ("in " ++ String.mk (goQuoteL a) ++ ": " ++ err))
        | (d, none) => (d, none)

/-- The `Import` loop over the split segments: the first failing directive
stops processing and its error is returned together with the style built so
far. -/
def importLoop : Style → List (List Char) → Style × Option String
  | dst, [] => (dst, none)
  | dst, a :: rest =>
    match applyDirective dst a with
    | (d, some e) => (d, some e)
    | (d, none) => importLoop d rest

/-- `Import` (source lines 19-52): split the input on `;` and apply each
directive in order. -/
def Import (dst : Style) (input : String) : Style × Option String :=
  importLoop dst (splitOnChar ';' input.data)

/-! ## Derived getters of the style object

The four border size/width getters of `lipgloss.Style` are derived: 0 when
the side flag is off, otherwise the widest glyph of the three border pieces
along that edge.  Glyph width (go-runewidth) is modelled as 1 per rune
except control characters — exact for the repertoire in scope, which has no
double-width East-Asian runes. -/

/-- Display width of one rune (see above). -/
def runeWidth (c : Char) : Nat := if c.toNat < 32 || c.toNat = 127 then 0 else 1

/-- `maxRuneWidth` (lipgloss): widest rune of a glyph string. -/
def maxRuneWidth (s : String) : Nat := (s.data.map runeWidth).foldl max 0

/-- `getBorderEdgeWidth` (lipgloss): widest of the three glyph pieces along
one edge. -/
def edgeWidth (a b c : String) : Nat :=
  max (maxRuneWidth a) (max (maxRuneWidth b) (maxRuneWidth c))

/-- `lipgloss.Style.GetBorderTopWidth`. -/
def Style.GetBorderTopWidth (s : Style) : Int :=
  if s.borderTop then
    edgeWidth s.borderStyle.topLeft s.borderStyle.top s.borderStyle.topRight
  else 0

/-- `lipgloss.Style.GetBorderBottomSize`. -/
def Style.GetBorderBottomSize (s : Style) : Int :=
  if s.borderBottom then
    edgeWidth s.borderStyle.bottomLeft s.borderStyle.bottom s.borderStyle.bottomRight
  else 0

/-- `lipgloss.Style.GetBorderLeftSize`. -/
def Style.GetBorderLeftSize (s : Style) : Int :=
  if s.borderLeft then
    edgeWidth s.borderStyle.topLeft s.borderStyle.left s.borderStyle.bottomLeft
  else 0

/-- `lipgloss.Style.GetBorderRightSize`. -/
def Style.GetBorderRightSize (s : Style) : Int :=
  if s.borderRight then
    edgeWidth s.borderStyle.topRight s.borderStyle.right s.borderStyle.bottomRight
  else 0

/-- `lipgloss.Style.GetHorizontalMargins`. -/
def Style.GetHorizontalMargins (s : Style) : Int := s.marginLeft + s.marginRight

/-- `lipgloss.Style.GetVerticalMargins`. -/
def Style.GetVerticalMargins (s : Style) : Int := s.marginTop + s.marginBottom

/-- `lipgloss.Style.GetHorizontalPadding`. -/
def Style.GetHorizontalPadding (s : Style) : Int := s.paddingLeft + s.paddingRight

/-- `lipgloss.Style.GetVerticalPadding`. -/
def Style.GetVerticalPadding (s : Style) : Int := s.paddingTop + s.paddingBottom

/-- `lipgloss.Style.GetHorizontalBorderSize`. -/
def Style.GetHorizontalBorderSize (s : Style) : Int :=
  s.GetBorderLeftSize + s.GetBorderRightSize

/-- `lipgloss.Style.GetVerticalBorderSize`. -/
def Style.GetVerticalBorderSize (s : Style) : Int :=
  s.GetBorderTopWidth + s.GetBorderBottomSize

/-- `lipgloss.Style.GetHorizontalFrameSize`. -/
def Style.GetHorizontalFrameSize (s : Style) : Int :=
  s.GetHorizontalMargins + s.GetHorizontalPadding + s.GetHorizontalBorderSize

/-- `lipgloss.Style.GetVerticalFrameSize`. -/
def Style.GetVerticalFrameSize (s : Style) : Int :=
  s.GetVerticalMargins + s.GetVerticalPadding + s.GetVerticalBorderSize

/-! ## Export -/

/-- `%v` rendering of a `lipgloss.Position` (a non-negative `float64` on the
exact-decimal grid reachable in this library): the integer part, then the
terminating decimal expansion of the fractional part when it is non-zero,
matching Go's shortest-decimal formatting for such values.  The fuel bounds
the expansion; all reachable positions terminate within it. -/
def fracDigits : Nat → Int → Int → List Char
  | 0, _, _ => []
  | fuel + 1, n, d =>
    if n = 0 then []
    else
      let n10 := n * 10
      let dig := n10 / d
      Char.ofNat ('0'.toNat + dig.toNat) :: fracDigits fuel (n10 - dig * d) d

/-- `%v` of a position (see `fracDigits`): the digits come from the
long division of the fraction `(num - i*den) / den` by repeated
multiplication by 10. -/
def posToString (q : Pos) : String :=
  let n := q.num
  let d : Int := (q.den : Int)
  let i := n / d
  if n % d = 0 then toString i
  else toString i ++ "." ++ String.mk (fracDigits 20 (n - i * d) d)

/-- `printValue` (source lines 127-151), dispatching on the getter's
declared result type exactly as the Go type switch does: `TerminalColor`
values print as `none`, the bare token, or `adaptive(light,dark)`;
`Border` values as the `%q`-quoted 8-tuple in the order top, bottom, left,
right, top-left, top-right, bottom-right, bottom-left; everything else
through `%v`. -/
def printValue : Value → String
  | .vColor .noColor => "none"
  | .vColor (.color c) => c
  | .vColor (.adaptive l d) => "adaptive(" ++ l ++ "," ++ d ++ ")"
  | .vBorder b =>
    "border(" ++ goQuote b.top ++ "," ++ goQuote b.bottom ++ "," ++ goQuote b.left ++ ","
      ++ goQuote b.right ++ "," ++ goQuote b.topLeft ++ "," ++ goQuote b.topRight ++ ","
      ++ goQuote b.bottomRight ++ "," ++ goQuote b.bottomLeft ++ ")"
  | .vInt i => toString i
  | .vBool b => if b then "true" else "false"
  | .vPos p => posToString p

/-- `isDefault` (source lines 153-166): `reflect.Value.IsZero` first (zero
integer, false, zero position, all-empty border struct), then the
`TerminalColor` case treating `NoColor` as default; the getters never return
a nil interface, and values of any other declared type fall to the
always-include branch. -/
def isDefault : Value → Bool
  | .vInt i => i = 0
  | .vBool b => !b
  | .vPos p => p = 0
  | .vBorder b => b = Border.empty
  | .vColor c => c = TerminalColor.noColor

/-- `ignoredMethods` (source lines 168-181). -/
def ignoredMethods : List String :=
  ["GetBorder", "GetMargin", "GetPadding", "GetFrameSize",
   "GetVerticalFrameSize", "GetHorizontalFrameSize",
   "GetVerticalMargins", "GetHorizontalMargins",
   "GetVerticalPadding", "GetHorizontalPadding",
   "GetVerticalBorderSize", "GetHorizontalBorderSize"]

/-- The `Get*` methods of `lipgloss.Style` (v0.5) in the order
`reflect.Type.Method` enumerates them (lexicographic by name), with the
value list each returns.  All of them are parameterless, so the
`NumIn() != 1` filter of `Export` excludes none.  The getter surface is the
one pinned by `TestExport/full` in `src/convert_test.go`. -/
def getterTable : List (String × (Style → List Value)) :=
  [("GetAlign", fun s => [.vPos s.align]),
   ("GetBackground", fun s => [.vColor s.background]),
   ("GetBlink", fun s => [.vBool s.blink]),
   ("GetBold", fun s => [.vBool s.bold]),
   ("GetBorder", fun s => [.vBorder s.borderStyle, .vBool s.borderTop, .vBool s.borderRight,
                           .vBool s.borderBottom, .vBool s.borderLeft]),
   ("GetBorderBottom", fun s => [.vBool s.borderBottom]),
   ("GetBorderBottomBackground", fun s => [.vColor s.borderBottomBackground]),
   ("GetBorderBottomForeground", fun s => [.vColor s.borderBottomForeground]),
   ("GetBorderBottomSize", fun s => [.vInt s.GetBorderBottomSize]),
   ("GetBorderLeft", fun s => [.vBool s.borderLeft]),
   ("GetBorderLeftBackground", fun s => [.vColor s.borderLeftBackground]),
   ("GetBorderLeftForeground", fun s => [.vColor s.borderLeftForeground]),
   ("GetBorderLeftSize", fun s => [.vInt s.GetBorderLeftSize]),
   ("GetBorderRight", fun s => [.vBool s.borderRight]),
   ("GetBorderRightBackground", fun s => [.vColor s.borderRightBackground]),
   ("GetBorderRightForeground", fun s => [.vColor s.borderRightForeground]),
   ("GetBorderRightSize", fun s => [.vInt s.GetBorderRightSize]),
   ("GetBorderStyle", fun s => [.vBorder s.borderStyle]),
   ("GetBorderTop", fun s => [.vBool s.borderTop]),
   ("GetBorderTopBackground", fun s => [.vColor s.borderTopBackground]),
   ("GetBorderTopForeground", fun s => [.vColor s.borderTopForeground]),
   ("GetBorderTopWidth", fun s => [.vInt s.GetBorderTopWidth]),
   ("GetColorWhitespace", fun s => [.vBool s.colorWhitespace]),
   ("GetFaint", fun s => [.vBool s.faint]),
   ("GetForeground", fun s => [.vColor s.foreground]),
   ("GetFrameSize", fun s => [.vInt s.GetHorizontalFrameSize, .vInt s.GetVerticalFrameSize]),
   ("GetHeight", fun s => [.vInt s.height]),
   ("GetHorizontalBorderSize", fun s => [.vInt s.GetHorizontalBorderSize]),
   ("GetHorizontalFrameSize", fun s => [.vInt s.GetHorizontalFrameSize]),
   ("GetHorizontalMargins", fun s => [.vInt s.GetHorizontalMargins]),
   ("GetHorizontalPadding", fun s => [.vInt s.GetHorizontalPadding]),
   ("GetInline", fun s => [.vBool s.inline]),
   ("GetItalic", fun s => [.vBool s.italic]),
   ("GetMargin", fun s => [.vInt s.marginTop, .vInt s.marginRight,
                           .vInt s.marginBottom, .vInt s.marginLeft]),
   ("GetMarginBottom", fun s => [.vInt s.marginBottom]),
   ("GetMarginLeft", fun s => [.vInt s.marginLeft]),
   ("GetMarginRight", fun s => [.vInt s.marginRight]),
   ("GetMarginTop", fun s => [.vInt s.marginTop]),
   ("GetMaxHeight", fun s => [.vInt s.maxHeight]),
   ("GetMaxWidth", fun s => [.vInt s.maxWidth]),
   ("GetPadding", fun s => [.vInt s.paddingTop, .vInt s.paddingRight,
                            .vInt s.paddingBottom, .vInt s.paddingLeft]),
   ("GetPaddingBottom", fun s => [.vInt s.paddingBottom]),
   ("GetPaddingLeft", fun s => [.vInt s.paddingLeft]),
   ("GetPaddingRight", fun s => [.vInt s.paddingRight]),
   ("GetPaddingTop", fun s => [.vInt s.paddingTop]),
   ("GetReverse", fun s => [.vBool s.reverse]),
   ("GetStrikethrough", fun s => [.vBool s.strikethrough]),
   ("GetStrikethroughSpaces", fun s => [.vBool s.strikethroughSpaces]),
   ("GetUnderline", fun s => [.vBool s.underline]),
   ("GetUnderlineSpaces", fun s => [.vBool s.underlineSpaces]),
   ("GetVerticalBorderSize", fun s => [.vInt s.GetVerticalBorderSize]),
   ("GetVerticalFrameSize", fun s => [.vInt s.GetVerticalFrameSize]),
   ("GetVerticalMargins", fun s => [.vInt s.GetVerticalMargins]),
   ("GetVerticalPadding", fun s => [.vInt s.GetVerticalPadding]),
   ("GetWidth", fun s => [.vInt s.width])]

/-- One `name: values;` entry of `Export` (source lines 111-122): the
kebab-case property name from the getter name without its `Get` prefix,
the values joined by single spaces. -/
def exportEntry (name : String) (vals : List Value) : String :=
  snakeCase (String.mk (name.data.drop 3)) ++ ": "
    ++ String.intercalate " " (vals.map printValue) ++ ";"

/-- The getter loop of `Export` (source lines 91-123): keep the `Get`
methods not in `ignoredMethods`; skip single-value getters whose value is
default unless `includeDefaults`; render the remaining entries. -/
def exportEntries (s : Style) (includeDefaults : Bool) : List String :=
  (getterTable.filter (fun e =>
      "Get".data.isPrefixOf e.1.data &&
      !(ignoredMethods.any (fun n => n = e.1)) &&
      !(!includeDefaults && (e.2 s).length = 1 &&
        isDefault ((e.2 s).headD (Value.vInt 0))))).map
    (fun e => exportEntry e.1 (e.2 s))

/-- `Export` (source lines 79-125).  The two options are modelled by
explicit parameters: `WithExportDefaults` as `includeDefaults` and
`WithSeparator` as `sep` (the default separator is a single space); entries
are joined by the separator, mirroring the `buf.Len() > 0` check. -/
def Export (s : Style) (includeDefaults : Bool) (sep : String) : String :=
  String.intercalate sep (exportEntries s includeDefaults)

/-- Decidable equality of `Except` results, used to evaluate the parsers at
concrete inputs. -/
instance {ε α : Type} [DecidableEq ε] [DecidableEq α] : DecidableEq (Except ε α) := fun a b =>
  match a, b with
  | .error e1, .error e2 =>
    if h : e1 = e2 then isTrue (by rw [h]) else isFalse (by simp [h])
  | .ok v1, .ok v2 =>
    if h : v1 = v2 then isTrue (by rw [h]) else isFalse (by simp [h])
  | .error _, .ok _ => isFalse (by simp)
  | .ok _, .error _ => isFalse (by simp)

/-- The error component of a resolution result (`prop` carries setter
functions, so the full `Except` is not compared directly). -/
def errOf {α : Type} (e : Except String α) : Option String :=
  match e with
  | .error s => some s
  | .ok _ => none

/-- `strings.Contains(haystack, needle)` on rune lists. -/
def strContains (hay needle : List Char) : Bool :=
  needle.isPrefixOf hay ||
    (match hay with
     | [] => false
     | _ :: t => strContains t needle)

/-- Helper for the atomicity results: every error path of `prop.assign`
returns the incoming style unchanged (the setter runs only after all
arguments parsed and the excess-input check passed). -/
theorem prop.assign_error_keeps_style (p : prop) (dst : Style) (args : String)
    (h : (p.assign dst args).2 ≠ none) : (p.assign dst args).1 = dst := by
  by_cases hu : args = "unset"
  · rcases hun : p.unsetFn with _ | u <;> simp_all [prop.assign, hu, hun]
  · rcases hp : p.parseArgs args.data with e | vals <;> simp_all [prop.assign, hu, hp]

/-- C9: per-directive atomicity.  Whenever applying one `;`-separated
directive fails — unresolvable property, missing colon, missing value,
argument parse error, excess input, or `unset` on a property without an
unsetter — the style returned alongside the error is exactly the
accumulator as it was before that directive: the setter is invoked only
after all arguments parsed and all input was consumed, and every error
path hands back the incoming style.  (`Import` stops at the first failing
directive, so the returned style is the fold of the successful prefix.) -/
theorem c9_directive_atomicity (dst : Style) (a : List Char)
    (h : (applyDirective dst a).2 ≠ none) :
    (applyDirective dst a).1 = dst := by
  unfold applyDirective at h ⊢
  by_cases he : (trimSpace a).isEmpty
  · simp_all
  by_cases hc : trimSpace a = "clear".data
  · simp_all
  rcases hs : splitFirstColon (trimSpace a) with _ | ⟨rawName, rawArgs⟩
  · simp_all
  rcases hg : getProp (String.mk (trimSpace rawName)) with e | p
  · simp_all
  rcases ha : p.assign dst (String.mk (trimSpace rawArgs)) with ⟨d, oe⟩
  have hd : d = dst := by
    rcases oe with _ | err
    · simp_all
    · have hk := prop.assign_error_keeps_style p dst (String.mk (trimSpace rawArgs))
        (by rw [ha]; simp)
      rw [ha] at hk
      exact hk
  rcases oe with _ | err <;> simp_all

/-- C9 witness: a concrete failing directive (`bold: nope` has no boolean
value) leaves the default style untouched. -/
theorem c9_directive_atomicity_witness :
    (applyDirective defaultStyle "bold: nope".data).1 = defaultStyle :=
  c9_directive_atomicity defaultStyle "bold: nope".data (by decide)

/-- C7: last-write-wins.  For every starting style, importing
`padding-left: 1; padding-left: 2` produces the same result as importing
`padding-left: 2` alone: directives apply left-to-right and the later
directive for the property overwrites the earlier one. -/
theorem c7_last_write_wins (s : Style) :
    Import s "padding-left: 1; padding-left: 2" = Import s "padding-left: 2" := rfl

set_option maxRecDepth 8000 in
/-- C1: the round-trip fails on the code.  For `s` the default style,
`Export(s, includeDefaults=true)` emits `border-bottom-size: 0;` (a derived
getter-only lipgloss property with no setter method), so importing the
export into a default style stops with `property not supported` instead of
reconstructing `s` — the round-trip errors for every style, contradicting
the claim and the spec's round-trippability design goal. -/
theorem c1_roundtrip_default_fails :
    Import defaultStyle (Export defaultStyle true " ") =
      (defaultStyle,
       some "in \"border-bottom-size: 0\": property not supported: \"border-bottom-size\"") := by
  decide

/-- C2 counterexample: importing
`border: border("a","b","c","d","e","f","g","h") true false` into a default
style succeeds and sets the border-bottom attribute to `true`, not `false`
as the claim states (matching `TestImport` in `src/convert_test.go`, which
expects `border-bottom: true;` in the export of this style). -/
theorem c2_variadic_border_counterexample :
    (Import defaultStyle
      "border: border(\"a\",\"b\",\"c\",\"d\",\"e\",\"f\",\"g\",\"h\") true false").2 = none ∧
    (Import defaultStyle
      "border: border(\"a\",\"b\",\"c\",\"d\",\"e\",\"f\",\"g\",\"h\") true false").1.borderBottom
      = true := by
  decide

/-- C2 amended: with two variadic flags the lipgloss CSS-shorthand expansion
applies the first flag to both vertical sides and the second to both
horizontal sides: top=true, bottom=true, left=false, right=false; the
associated size attributes follow (top width 1, bottom size 1, left/right
size 0 for the one-column glyphs). -/
theorem c2_variadic_border_amended :
    Import defaultStyle
      "border: border(\"a\",\"b\",\"c\",\"d\",\"e\",\"f\",\"g\",\"h\") true false" =
      ({ defaultStyle with
          borderStyle := ⟨"a", "b", "c", "d", "e", "f", "g", "h"⟩,
          borderTop := true, borderBottom := true,
          borderLeft := false, borderRight := false }, none) ∧
    (Import defaultStyle
      "border: border(\"a\",\"b\",\"c\",\"d\",\"e\",\"f\",\"g\",\"h\") true false").1.GetBorderTopWidth = 1 ∧
    (Import defaultStyle
      "border: border(\"a\",\"b\",\"c\",\"d\",\"e\",\"f\",\"g\",\"h\") true false").1.GetBorderBottomSize = 1 ∧
    (Import defaultStyle
      "border: border(\"a\",\"b\",\"c\",\"d\",\"e\",\"f\",\"g\",\"h\") true false").1.GetBorderLeftSize = 0 ∧
    (Import defaultStyle
      "border: border(\"a\",\"b\",\"c\",\"d\",\"e\",\"f\",\"g\",\"h\") true false").1.GetBorderRightSize = 0 := by
  decide

/-- C3 counterexample: `align: 0.3` does not parse — `rePos` only admits the
fixed numeric literals `1`, `1.0`, `0.5`, `.5`, `0`, `0.0`, `.0`, so the
claim that every floating-point literal in [0.0, 1.0] is accepted verbatim
fails at 0.3. -/
theorem c3_position_float_counterexample :
    Import defaultStyle "align: 0.3" =
      (defaultStyle, some "in \"align: 0.3\": no value found") := by
  decide

/-- C3 amended: the position parser accepts the keywords top/left (0.0),
bottom/right (1.0) and center (0.5), and of numeric literals exactly the
seven spellings admitted by `rePos` — `1`, `1.0`, `0.5`, `.5`, `0`, `0.0`,
`.0` — parsed to their values; any other literal (e.g. `0.3`) is
rejected with `no value found`. -/
theorem c3_position_amended :
    postype.parse "top".data 0 = Except.ok (3, Value.vPos 0) ∧
    postype.parse "left".data 0 = Except.ok (4, Value.vPos 0) ∧
    postype.parse "bottom".data 0 = Except.ok (6, Value.vPos 1) ∧
    postype.parse "right".data 0 = Except.ok (5, Value.vPos 1) ∧
    postype.parse "center".data 0 = Except.ok (6, Value.vPos (mkRat 1 2)) ∧
    postype.parse "1".data 0 = Except.ok (1, Value.vPos 1) ∧
    postype.parse "1.0".data 0 = Except.ok (3, Value.vPos 1) ∧
    postype.parse "0.5".data 0 = Except.ok (3, Value.vPos (mkRat 1 2)) ∧
    postype.parse ".5".data 0 = Except.ok (2, Value.vPos (mkRat 1 2)) ∧
    postype.parse "0".data 0 = Except.ok (1, Value.vPos 0) ∧
    postype.parse "0.0".data 0 = Except.ok (3, Value.vPos 0) ∧
    postype.parse ".0".data 0 = Except.ok (2, Value.vPos 0) ∧
    postype.parse "0.3".data 0 = Except.error "no value found" := by
  decide

/-- C4 counterexample: when the color parser rejects the bare token `#axxa`
its error is the constant `color not recognized`, which does not contain the
offending token text (matching `TestImport`, which expects exactly
`in "foreground: #axxa": color not recognized`). -/
theorem c4_color_error_counterexample :
    colortype.parse "#axxa".data 0 = Except.error "color not recognized" ∧
    strContains "color not recognized".data "#axxa".data = false := by
  decide

/-- C4 amended: the color parser names the offending text only for the
components of the `adaptive(A,B)` form; a bare unrecognized token is
rejected with the constant `color not recognized`, and the token reaches
the final message only through `Import`'s quoted-directive context. -/
theorem c4_color_error_amended :
    colortype.parse "adaptive(a,b)".data 0 =
      Except.error "color not recognized: \"a\"" ∧
    Import defaultStyle "foreground: #axxa" =
      (defaultStyle, some "in \"foreground: #axxa\": color not recognized") := by
  decide

/-- C5 counterexample: a `get-`-prefixed property name receives exactly the
bare unsupported-property error — the same shape as any unknown name — and
no guidance message. -/
theorem c5_get_prefix_counterexample :
    errOf (discoverProp "get-bold") = some "property not supported: \"get-bold\"" ∧
    errOf (discoverProp "no-such-prop") = some "property not supported: \"no-such-prop\"" := by
  decide

/-- C5 amended: the `set-` and `unset-` guard clauses explain the correct
spelling (`xx: foo` / `xx: unset`), while the `get-` guard produces the bare
`property not supported` error. -/
theorem c5_prefix_guidance_amended :
    Import defaultStyle "set-bold: true" =
      (defaultStyle,
       some "in \"set-bold: true\": don't use 'set-xx: foo;'  use 'xx: foo;' instead") ∧
    Import defaultStyle "unset-bold: true" =
      (defaultStyle,
       some "in \"unset-bold: true\": don't use 'unset-xx: foo;' use 'xx: unset;' instead") ∧
    Import defaultStyle "get-bold: true" =
      (defaultStyle,
       some "in \"get-bold: true\": property not supported: \"get-bold\"") := by
  decide

/-- C6: the claim is right and the code is wrong.  `reBorderStr` demands
four *decimal* digits after `\u` (`\\u[0-9]{4}`), so the four-digit hex
escape `\u00fa` — hex letters included, which the code's own comment
(`"\u1234" - a hex-encoded rune`) and decoder (`strconv.Unquote`) accept —
fails to match and the directive is rejected, while the all-decimal
`\u0041` decodes (as hexadecimal!) to `A`. -/
theorem c6_border_unicode_escape_bug :
    (Import defaultStyle
      "border-style: border(\"\\u00fa\",\"b\",\"c\",\"d\",\"e\",\"f\",\"g\",\"h\")").2 =
      some "in \"border-style: border(\\\"\\\\u00fa\\\",\\\"b\\\",\\\"c\\\",\\\"d\\\",\\\"e\\\",\\\"f\\\",\\\"g\\\",\\\"h\\\")\": no valid border value found" ∧
    Import defaultStyle
      "border-style: border(\"\\u0041\",\"b\",\"c\",\"d\",\"e\",\"f\",\"g\",\"h\")" =
      ({ defaultStyle with borderStyle := ⟨"A", "b", "c", "d", "e", "f", "g", "h"⟩ }, none) := by
  decide

set_option maxRecDepth 8000 in
/-- C8: default suppression.  Export of a defaulted style with no options is
the empty string; with `includeDefaults` it enumerates every known
(non-denylisted) property at its zero value. -/
theorem c8_default_suppression :
    Export defaultStyle false " " = "" ∧
    Export defaultStyle true " " =
      "align: 0; background: none; blink: false; bold: false; border-bottom: false; border-bottom-background: none; border-bottom-foreground: none; border-bottom-size: 0; border-left: false; border-left-background: none; border-left-foreground: none; border-left-size: 0; border-right: false; border-right-background: none; border-right-foreground: none; border-right-size: 0; border-style: border(\"\",\"\",\"\",\"\",\"\",\"\",\"\",\"\"); border-top: false; border-top-background: none; border-top-foreground: none; border-top-width: 0; color-whitespace: false; faint: false; foreground: none; height: 0; inline: false; italic: false; margin-bottom: 0; margin-left: 0; margin-right: 0; margin-top: 0; max-height: 0; max-width: 0; padding-bottom: 0; padding-left: 0; padding-right: 0; padding-top: 0; reverse: false; strikethrough: false; strikethrough-spaces: false; underline: false; underline-spaces: false; width: 0;" := by
  decide

/-- C10: beyond the documented spellings, the boolean parser accepts the
single-letter tokens `t`, `T` (true) and `f`, `F` (false) as well as `1`
and `0`, while a mixed-case spelling such as `tRuE` matches nothing and is
rejected. -/
theorem c10_bool_tokens :
    booltype.parse "t".data 0 = Except.ok (1, Value.vBool true) ∧
    booltype.parse "T".data 0 = Except.ok (1, Value.vBool true) ∧
    booltype.parse "f".data 0 = Except.ok (1, Value.vBool false) ∧
    booltype.parse "F".data 0 = Except.ok (1, Value.vBool false) ∧
    booltype.parse "true".data 0 = Except.ok (4, Value.vBool true) ∧
    booltype.parse "false".data 0 = Except.ok (5, Value.vBool false) ∧
    booltype.parse "1".data 0 = Except.ok (1, Value.vBool true) ∧
    booltype.parse "0".data 0 = Except.ok (1, Value.vBool false) ∧
    booltype.parse "tRuE".data 0 = Except.error "no value found" := by
  decide

end LipglossConvert
